import Mathlib

set_option maxRecDepth 10000

/-!
Verification of the dual-channel oscilloscope firmware (ADC acquisition +
ECG waveform playback, `src/unnamed/part_000`) and of the BCD display
exercise (`guia1_ej6.c`).

The definitions below are shallow embeddings of the C source:

* `ecg`, `BUFFER_SIZE`, `GenerarSenalECG` embed the waveform table and the
  playback step (source `GenerarSeñalECG`: read `ecg[indice_ecg]`, write it
  to the DAC, advance `indice_ecg = (indice_ecg + 1) % BUFFER_SIZE`).
  The C initializer for `ecg[BUFFER_SIZE]` lists 256 values while
  `BUFFER_SIZE` is 231; per C array-initializer semantics the elements
  beyond index 230 are discarded, so the compiled array holds exactly the
  first 231 values, which is what `ecg` below contains.
* `vTaskNotifyGiveFromISR` / `ulTaskNotifyTake_clearOnExit` embed the
  FreeRTOS task-notification primitives exactly as the program calls them:
  a give increments the task's notification count, and the take is called
  with `pdTRUE`, so it clears the whole count on exit (one wake consumes
  every notification given so far).
* `voltage`, `printf3f`, `sampleLine` embed the conversion
  `(valor_adc * 3.3) / 4095.0` (in exact rational arithmetic, the idealised
  value that `%.3f` then rounds) and the `sprintf(buffer, "%.3f\r\n", v)`
  formatting for non-negative values.
* `Step` traces (`timerAdcCallbackTrace`, `adcTaskIterTrace`,
  `timerEcgCallbackTrace`, `app_mainTrace`) embed which driver operations
  each routine performs, in source order. `app_main` is straight-line code
  that inspects no driver result (the driver init functions return `void`),
  so its trace does not depend on the driver environment.
* `SysState` with `timerEcgFire` / `timerAdcFire` / `adcTaskFire` embeds
  the program's mutable globals (`indice_ecg`, `valor_adc`, the task
  notification count) together with the waveform table as laid out in
  memory, and the three routines that touch them.
* `convertToBcdArray`, `BCDtoGPIO`, `DisplayNumberOnLcd` embed the BCD
  display exercise (`guia1_ej6.c`).
-/

/-! ## Waveform store and playback channel -/

/-- Source: `#define BUFFER_SIZE 231`. -/
def BUFFER_SIZE : Nat := 231

/-- Source: `unsigned char ecg[BUFFER_SIZE] = { ... }` — the first 231
initializer values (the excess initializer elements are discarded by the C
compiler, see the header comment). -/
def ecg : List Nat := [
  17, 17, 17, 17, 17, 17, 17, 17, 17, 17, 17, 18, 18, 18, 17, 17, 17, 17, 17, 17, 17, 18, 18, 18, 18, 18, 18, 18, 17, 17, 16, 16, 16,
  16, 17, 17, 18, 18, 18, 17, 17, 17, 17, 18, 18, 19, 21, 22, 24, 25, 26, 27, 28, 29, 31, 32, 33, 34, 34, 35, 37, 38, 37, 34, 29, 24,
  19, 15, 14, 15, 16, 17, 17, 17, 16, 15, 14, 13, 13, 13, 13, 13, 13, 13, 12, 12, 10, 6, 2, 3, 15, 43, 88, 145, 199, 237, 252, 242, 211,
  167, 117, 70, 35, 16, 14, 22, 32, 38, 37, 32, 27, 24, 24, 26, 27, 28, 28, 27, 28, 28, 30, 31, 31, 31, 32, 33, 34, 36, 38, 39, 40, 41,
  42, 43, 45, 47, 49, 51, 53, 55, 57, 60, 62, 65, 68, 71, 75, 79, 83, 87, 92, 97, 101, 106, 111, 116, 121, 125, 129, 133, 136, 138, 139, 140, 140,
  139, 137, 133, 129, 123, 117, 109, 101, 92, 84, 77, 70, 64, 58, 52, 47, 42, 39, 36, 34, 31, 30, 28, 27, 26, 25, 25, 25, 25, 25, 25, 25, 25,
  24, 24, 24, 24, 25, 25, 25, 25, 25, 25, 25, 24, 24, 24, 24, 24, 24, 24, 24, 23, 23, 22, 22, 21, 21, 21, 20, 20, 20, 20, 20, 19, 19]

/-- Source `GenerarSeñalECG` (`ñ` is not a legal Lean identifier character):
```
uint8_t valor_dac = ecg[indice_ecg];
AnalogOutputWrite(valor_dac);
indice_ecg = (indice_ecg + 1) % BUFFER_SIZE;
```
Input: the current cursor `indice_ecg`; output: the value written to the
DAC and the new cursor. -/
def GenerarSenalECG (indice_ecg : Nat) : Nat × Nat :=
  let valor_dac := ecg.getD indice_ecg 0
  (valor_dac, (indice_ecg + 1) % BUFFER_SIZE)

/-- The cursor-advance part of one playback firing. -/
def playbackStep (indice_ecg : Nat) : Nat := (GenerarSenalECG indice_ecg).2

/-! ## Task-notification channel (FreeRTOS, as called by this program) -/

/-- FreeRTOS `vTaskNotifyGiveFromISR(adc_task_handle, NULL)` (the body of
`TimerAdcCallback`): increments the target task's notification count. -/
def vTaskNotifyGiveFromISR (notifyCount : Nat) : Nat := notifyCount + 1

/-- FreeRTOS `ulTaskNotifyTake(pdTRUE, portMAX_DELAY)` as called at the top of the
`AdcTask` loop, in the non-blocking case (count non-zero): returns the
count and — because the first argument is `pdTRUE` — clears the whole
count to zero on exit.  When the count is zero the task blocks instead,
and resumes only after a give makes the count non-zero. -/
def ulTaskNotifyTake_clearOnExit (notifyCount : Nat) : Nat × Nat :=
  (notifyCount, 0)

/-- Whether a wake is pending for the consumer: a blocked
`ulTaskNotifyTake(pdTRUE, portMAX_DELAY)` returns (rather than blocks)
exactly when the notification count is non-zero. -/
def pendingWake (notifyCount : Nat) : Bool := notifyCount != 0

/-! ## Driver-operation traces -/

/-- Timer identifiers used by `app_main` (`TIMER_A` drives the ADC, and
`TIMER_B` drives the ECG playback). -/
inductive TimerId
  | TIMER_A
  | TIMER_B
  deriving DecidableEq

/-- The driver operations the oscilloscope program performs, with the
configuration data each carries. -/
inductive Step
  | analogInputInit
  | analogOutputInit
  | uartInit (baud_rate : Nat)
  | timerInit (timer : TimerId) (periodUs : Nat)
  | taskCreate
  | timerStart (timer : TimerId)
  | notifyGiveFromISR
  | notifyTake
  | analogInputRead
  | analogOutputWrite
  | sprintfFormat
  | uartSendString
  deriving DecidableEq

/-- Source: `#define TIMER_ADC_PERIOD_US 2000`. -/
def TIMER_ADC_PERIOD_US : Nat := 2000

/-- Source: `#define TIMER_ECG_PERIOD_US 4000`. -/
def TIMER_ECG_PERIOD_US : Nat := 4000

/-- Source: `#define UART_BAUD_RATE 115200`. -/
def UART_BAUD_RATE : Nat := 115200

/-- The `timer_config_t` fields `app_main` actually sets on its two timer
configurations (the callback pointers are modelled by the traces below). -/
structure timer_config_t where
  timer : TimerId
  period : Nat

/-- The `serial_config_t` field relevant here. -/
structure serial_config_t where
  baud_rate : Nat

/-- Source `timer_adc_config` as built in `app_main`. -/
def timer_adc_config : timer_config_t :=
  { timer := TimerId.TIMER_A, period := TIMER_ADC_PERIOD_US }

/-- Source `timer_ecg_config` as built in `app_main`. -/
def timer_ecg_config : timer_config_t :=
  { timer := TimerId.TIMER_B, period := TIMER_ECG_PERIOD_US }

/-- Source `uart_config` as built in `app_main`. -/
def uart_config : serial_config_t := { baud_rate := UART_BAUD_RATE }

/-- Driver operations performed by `TimerAdcCallback`, in order: its body
is the single call `vTaskNotifyGiveFromISR(adc_task_handle, NULL)`. -/
def timerAdcCallbackTrace : List Step := [Step.notifyGiveFromISR]

/-- Driver operations performed by one iteration of the `AdcTask` loop
body, in order: `ulTaskNotifyTake`, `AnalogInputReadSingle`, `sprintf`,
`UartSendString`. -/
def adcTaskIterTrace : List Step :=
  [Step.notifyTake, Step.analogInputRead, Step.sprintfFormat, Step.uartSendString]

/-- Driver operations performed by `TimerEcgCallback`, in order: it calls
`GenerarSeñalECG`, whose only driver operation is `AnalogOutputWrite`. -/
def timerEcgCallbackTrace : List Step := [Step.analogOutputWrite]

/-- The outcome each driver-layer configuration call would report if it
were consulted: whether the two timers, the UART, the ADC and the DAC can
be configured as requested. -/
structure DriverEnv where
  timerAOk : Bool
  timerBOk : Bool
  uartOk : Bool
  adcOk : Bool
  dacOk : Bool

/-- The error taxonomy the specification prescribes for startup. -/
inductive InitError
  | ResourceUnavailable
  deriving DecidableEq

/-- Driver operations performed by `app_main`, in source order.  The body
is straight-line: it never branches on a driver result (the driver init
functions return `void` and `app_main` tests nothing), so the trace is the
same for every driver environment. -/
def app_mainTrace (_env : DriverEnv) : List Step :=
  [Step.analogInputInit, Step.analogOutputInit,
   Step.uartInit UART_BAUD_RATE,
   Step.timerInit TimerId.TIMER_A TIMER_ADC_PERIOD_US,
   Step.timerInit TimerId.TIMER_B TIMER_ECG_PERIOD_US,
   Step.taskCreate,
   Step.timerStart TimerId.TIMER_A, Step.timerStart TimerId.TIMER_B]

/-- The error `app_main` reports: it has no error path at all, so it
reports none regardless of the driver environment. -/
def app_mainError (_env : DriverEnv) : Option InitError := none

/-! ## Voltage conversion and `%.3f` formatting -/

/-- Source (in `AdcTask`): `float voltage = (valor_adc * 3.3) / 4095.0;`
modelled in exact rational arithmetic. -/
def voltage (valor_adc : ℚ) : ℚ := valor_adc * 3.3 / 4095.0

/-- The ASCII digit character for `n < 10`. -/
def digitChar (n : Nat) : Char := Char.ofNat (48 + n)

/-- Little-endian decimal digits of `n`, computed with `fuel ≥ n` steps
(fuel keeps the recursion structural, so it evaluates in the kernel). -/
def natDigitsAux : Nat → Nat → List Nat
  | _, 0 => []
  | 0, _ + 1 => []
  | fuel + 1, n + 1 => ((n + 1) % 10) :: natDigitsAux fuel ((n + 1) / 10)

/-- Decimal representation of a natural number. -/
def natDecStr (n : Nat) : String :=
  if n = 0 then "0" else String.mk ((natDigitsAux n n).reverse.map digitChar)

/-- Exactly three decimal digits, zero-padded (the fractional part of
`%.3f`). -/
def pad3 (n : Nat) : String :=
  String.mk [digitChar (n / 100), digitChar (n / 10 % 10), digitChar (n % 10)]

/-- Value `v` rounded to the nearest integer number of thousandths (what `%.3f`
prints for the non-negative values this program produces). -/
def roundMilli (v : ℚ) : Nat := (Int.floor (v * 1000 + 1/2)).toNat

/-- Model of `sprintf(buffer, "%.3f", v)` for the non-negative values this program
produces: integer part, a decimal point, and exactly three fractional
digits. -/
def printf3f (v : ℚ) : String :=
  natDecStr (roundMilli v / 1000) ++ "." ++ pad3 (roundMilli v % 1000)

/-- The full line `AdcTask` builds: `sprintf(buffer, "%.3f\r\n", voltage)`. -/
def sampleLine (v : ℚ) : String := printf3f v ++ "\r\n"

/-- Source: `char buffer[32];` in `AdcTask`. -/
def adcTaskBufferBytes : Nat := 32

/-- The two C formatting functions relevant to the bounded-write
distinction: `sprintf` takes no output-size argument, `snprintf` does. -/
inductive CFormatter
  | sprintf
  | snprintf
  deriving DecidableEq

/-- Whether the formatter bounds the number of bytes it writes to the
destination buffer. -/
def CFormatter.boundedWrite : CFormatter → Bool
  | CFormatter.sprintf => false
  | CFormatter.snprintf => true

/-- The formatter `AdcTask` calls: `sprintf(buffer, "%.3f\r\n", voltage)`. -/
def adcTaskFormatter : CFormatter := CFormatter.sprintf

/-! ## Whole-program mutable state -/

/-- The oscilloscope program's mutable globals, together with the waveform
array as laid out in memory: `indice_ecg` (the playback cursor),
`valor_adc` (the last raw sample), the `AdcTask` notification count, and
the `ecg` table itself. -/
structure SysState where
  indice_ecg : Nat
  valor_adc : Nat
  notifyCount : Nat
  ecgTable : List Nat

/-- The state after `app_main` runs: `indice_ecg = 0`, `valor_adc = 0`,
no notification pending, and the `ecg` table as initialised. -/
def initState : SysState :=
  { indice_ecg := 0, valor_adc := 0, notifyCount := 0, ecgTable := ecg }

/-- One firing of `TimerEcgCallback` on the whole state (the state-level
rendering of `GenerarSeñalECG`): read the sample under the cursor, output
it on the DAC (second component), advance the cursor modulo
`BUFFER_SIZE`.  No other field is touched. -/
def timerEcgFire (s : SysState) : SysState × Nat :=
  ({ s with indice_ecg := (s.indice_ecg + 1) % BUFFER_SIZE },
   s.ecgTable.getD s.indice_ecg 0)

/-- One firing of `TimerAdcCallback` on the whole state: give one
notification to `AdcTask`.  No other field is touched. -/
def timerAdcFire (s : SysState) : SysState :=
  { s with notifyCount := vTaskNotifyGiveFromISR s.notifyCount }

/-- One unblocked iteration of the `AdcTask` loop body on the whole state,
where `raw` is the value `AnalogInputReadSingle` stores into `valor_adc`:
the take clears the notification count, the raw sample is stored, and the
formatted line (second component) is sent over the UART. -/
def adcTaskFire (raw : Nat) (s : SysState) : SysState × String :=
  ({ s with notifyCount := (ulTaskNotifyTake_clearOnExit s.notifyCount).2,
            valor_adc := raw },
   sampleLine (voltage raw))

/-! ## BCD display exercise (`guia1_ej6.c`) -/

/-- The digit-filling loop of `convertToBcdArray`:
`for (i = 0; i < digits; i++) { bcd_number[digits-1-i] = data % 10; data /= 10; }`
rendered as the list it leaves in `bcd_number` (most-significant digit
first, zero-padded on the left). -/
def convertToBcdArray_fill : Nat → Nat → List Nat
  | _, 0 => []
  | data, digits + 1 => convertToBcdArray_fill (data / 10) digits ++ [data % 10]

/-- Source `convertToBcdArray(data, digits, bcd_number)`: computes
`max_value = 10^digits` by repeated multiplication (exact as long as
`10^digits` is representable in `int`), returns `-1` (here `none`) when
`data >= max_value`, otherwise fills `bcd_number` most-significant digit
first and returns `0` (here `some` of the filled array). -/
def convertToBcdArray (data : Nat) (digits : Nat) : Option (List Nat) :=
  let max_value := 10 ^ digits
  if max_value ≤ data then none
  else some (convertToBcdArray_fill data digits)

/-- Source: `#define N_BITS 4`. -/
def N_BITS : Nat := 4

/-- A single GPIO write: `GPIOOn(pin)` or `GPIOOff(pin)`. -/
inductive GpioEvent
  | on (pin : Nat)
  | off (pin : Nat)
  deriving DecidableEq

/-- Source `BCDtoGPIO(digit, gpio_config)`: for each of the 4 BCD bits,
turn the mapped pin on when the bit is set and off when it is clear
(`digit & (1 << i)`, written arithmetically as `digit / 2^i % 2`). -/
def BCDtoGPIO (digit : Nat) (gpio_config : List Nat) : List GpioEvent :=
  (List.range N_BITS).map (fun i =>
    if digit / 2 ^ i % 2 = 1 then GpioEvent.on (gpio_config.getD i 0)
    else GpioEvent.off (gpio_config.getD i 0))

/-- Source `DisplayNumberOnLcd(data, digits, bcd_gpio, sel_gpio)`: on
conversion failure it prints an error and returns before any GPIO call;
otherwise, for each digit position it drives the select pins (on for the
current position, off for the others) and then sends the digit's BCD code
through `BCDtoGPIO`. -/
def DisplayNumberOnLcd (data digits : Nat) (bcd_gpio sel_gpio : List Nat) :
    List GpioEvent :=
  match convertToBcdArray data digits with
  | none => []
  | some bcd_array =>
    (List.range digits).flatMap (fun i =>
      ((List.range digits).map (fun j =>
        if j = i then GpioEvent.on (sel_gpio.getD j 0)
        else GpioEvent.off (sel_gpio.getD j 0)))
      ++ BCDtoGPIO (bcd_array.getD i 0) bcd_gpio)

/-! ## Supporting lemmas -/

lemma playbackStep_iterate (n : Nat) :
    ∀ c : Nat, c < BUFFER_SIZE → playbackStep^[n] c = (c + n) % BUFFER_SIZE := by
  induction n with
  | zero => intro c hc; simpa using (Nat.mod_eq_of_lt hc).symm
  | succ n ih =>
      intro c hc
      rw [Function.iterate_succ_apply', ih c hc]
      simp only [playbackStep, GenerarSenalECG]
      rw [Nat.mod_add_mod, Nat.add_assoc]

/-! ## Claim theorems -/

/-- C1: one firing of the playback channel at cursor `c < 231` writes the
waveform sample at index `c` to the analog output and advances the cursor
to `(c + 1) % 231`; after exactly 231 firings the cursor returns to its
starting value, and a cursor at 230 advances to 0, not 231. -/
theorem C1_playback_cursor_cycle (c : Nat) (hc : c < BUFFER_SIZE) :
    (GenerarSenalECG c).1 = ecg.getD c 0
    ∧ (GenerarSenalECG c).2 = (c + 1) % BUFFER_SIZE
    ∧ playbackStep^[BUFFER_SIZE] c = c
    ∧ (GenerarSenalECG 230).2 = 0 := by
  refine ⟨rfl, rfl, ?_, by decide⟩
  rw [playbackStep_iterate BUFFER_SIZE c hc, Nat.add_mod_right]
  exact Nat.mod_eq_of_lt hc

/-- Witness for C1 at the concrete cursor 5. -/
theorem C1_playback_cursor_cycle_witness :
    5 < BUFFER_SIZE
    ∧ ((GenerarSenalECG 5).1 = ecg.getD 5 0
       ∧ (GenerarSenalECG 5).2 = (5 + 1) % BUFFER_SIZE
       ∧ playbackStep^[BUFFER_SIZE] 5 = 5
       ∧ (GenerarSenalECG 230).2 = 0) :=
  ⟨by decide, C1_playback_cursor_cycle 5 (by decide)⟩

/-- C2: the notification channel between `TimerAdcCallback` and `AdcTask`
coalesces signals at the wake level: after any single take nothing remains
pending (at most one wake is ever pending), a give arriving while a wake is
already pending leaves the pending-wake state unchanged (a no-op, nothing
is queued for a later wake), and a consumer blocked across `k ≥ 1` trigger
firings finds one pending wake, consumes everything in that single take,
and is left with nothing pending — one wake, not `k`. -/
theorem C2_notification_coalescing (k : Nat) (hk : 1 ≤ k) :
    (∀ m : Nat, pendingWake ((ulTaskNotifyTake_clearOnExit m).2) = false)
    ∧ (∀ m : Nat, pendingWake m = true →
        pendingWake (vTaskNotifyGiveFromISR m) = pendingWake m)
    ∧ pendingWake (vTaskNotifyGiveFromISR^[k] 0) = true
    ∧ (ulTaskNotifyTake_clearOnExit (vTaskNotifyGiveFromISR^[k] 0)).2 = 0
    ∧ pendingWake
        ((ulTaskNotifyTake_clearOnExit (vTaskNotifyGiveFromISR^[k] 0)).2) = false := by
  have hgive : ∀ n j : Nat, vTaskNotifyGiveFromISR^[j] n = n + j := by
    intro n j
    induction j with
    | zero => rfl
    | succ j ih =>
        rw [Function.iterate_succ_apply', ih]
        simp [vTaskNotifyGiveFromISR, Nat.add_assoc]
  refine ⟨fun m => rfl, fun m hm => ?_, ?_, rfl, rfl⟩
  · simp only [pendingWake, vTaskNotifyGiveFromISR] at hm ⊢
    simpa using hm
  · rw [hgive 0 k]
    simp only [pendingWake, Nat.zero_add]
    simpa using Nat.pos_iff_ne_zero.mp hk

/-- Witness for C2 at `k = 3` (three trigger firings while the consumer is
blocked). -/
theorem C2_notification_coalescing_witness :
    1 ≤ 3
    ∧ ((∀ m : Nat, pendingWake ((ulTaskNotifyTake_clearOnExit m).2) = false)
       ∧ (∀ m : Nat, pendingWake m = true →
           pendingWake (vTaskNotifyGiveFromISR m) = pendingWake m)
       ∧ pendingWake (vTaskNotifyGiveFromISR^[3] 0) = true
       ∧ (ulTaskNotifyTake_clearOnExit (vTaskNotifyGiveFromISR^[3] 0)).2 = 0
       ∧ pendingWake
           ((ulTaskNotifyTake_clearOnExit (vTaskNotifyGiveFromISR^[3] 0)).2) = false) :=
  ⟨by decide, C2_notification_coalescing 3 (by decide)⟩

/-- C3: `TimerAdcCallback`, which runs in interrupt context, performs no
analog read — its whole trace is the single interrupt-safe notify — while
the analog read appears in the deferred consumer `AdcTask` and in no other
routine of the program (in particular not in the other interrupt callback
`TimerEcgCallback`, nor in `app_main`). -/
theorem C3_no_adc_read_in_interrupt :
    timerAdcCallbackTrace = [Step.notifyGiveFromISR]
    ∧ Step.analogInputRead ∉ timerAdcCallbackTrace
    ∧ Step.analogInputRead ∈ adcTaskIterTrace
    ∧ Step.analogInputRead ∉ timerEcgCallbackTrace
    ∧ ∀ env : DriverEnv, Step.analogInputRead ∉ app_mainTrace env := by
  refine ⟨rfl, by decide, by decide, by decide, fun env => by simp [app_mainTrace]⟩

/-- C9: the acquisition trigger is configured with a 2000 µs period
(500 Hz), the playback trigger with a 4000 µs period (250 Hz), and the
serial link at 115200 baud; `app_main` arms each of them exactly once, and
none of the routines that run afterwards (`TimerAdcCallback`, `AdcTask`,
`TimerEcgCallback`) performs any timer or UART reconfiguration. -/
theorem C9_fixed_timing_configuration :
    timer_adc_config.period = 2000
    ∧ timer_ecg_config.period = 4000
    ∧ uart_config.baud_rate = 115200
    ∧ (∀ env : DriverEnv,
        (app_mainTrace env).count (Step.timerInit TimerId.TIMER_A 2000) = 1
        ∧ (app_mainTrace env).count (Step.timerInit TimerId.TIMER_B 4000) = 1
        ∧ (app_mainTrace env).count (Step.uartInit 115200) = 1)
    ∧ (∀ t p, Step.timerInit t p ∉ timerAdcCallbackTrace
        ∧ Step.timerInit t p ∉ adcTaskIterTrace
        ∧ Step.timerInit t p ∉ timerEcgCallbackTrace)
    ∧ (∀ b, Step.uartInit b ∉ timerAdcCallbackTrace
        ∧ Step.uartInit b ∉ adcTaskIterTrace
        ∧ Step.uartInit b ∉ timerEcgCallbackTrace) := by
  refine ⟨rfl, rfl, rfl, fun env => ⟨rfl, rfl, rfl⟩,
    fun t p => ⟨by simp [timerAdcCallbackTrace], by simp [adcTaskIterTrace],
      by simp [timerEcgCallbackTrace]⟩,
    fun b => ⟨by simp [timerAdcCallbackTrace], by simp [adcTaskIterTrace],
      by simp [timerEcgCallbackTrace]⟩⟩

/-- C7 counterexample: in the environment where `TIMER_A` cannot be
configured at the requested period, `app_main` still reports no error —
in particular not `ResourceUnavailable` — and still proceeds through the
identical initialization sequence, creating the task and starting both
timers.  The claim that initialization fails and aborts is false. -/
theorem C7_counterexample :
    app_mainError ⟨false, true, true, true, true⟩ = none
    ∧ Step.taskCreate ∈ app_mainTrace ⟨false, true, true, true, true⟩
    ∧ Step.timerStart TimerId.TIMER_A ∈ app_mainTrace ⟨false, true, true, true, true⟩
    ∧ Step.timerStart TimerId.TIMER_B ∈ app_mainTrace ⟨false, true, true, true, true⟩
    ∧ app_mainTrace ⟨false, true, true, true, true⟩
      = app_mainTrace ⟨true, true, true, true, true⟩ := by
  refine ⟨rfl, by decide, by decide, by decide, rfl⟩

/-- C7 amended: `app_main` performs no error detection at all — for every
driver outcome it reports no error and unconditionally runs the same
initialization sequence, creating the consumer task and starting both
timers; a timer or peripheral that cannot be configured is silently
accepted rather than aborting initialization. -/
theorem C7_no_error_handling (env : DriverEnv) :
    app_mainError env = none
    ∧ app_mainTrace env = app_mainTrace ⟨true, true, true, true, true⟩
    ∧ Step.taskCreate ∈ app_mainTrace env
    ∧ Step.timerStart TimerId.TIMER_A ∈ app_mainTrace env
    ∧ Step.timerStart TimerId.TIMER_B ∈ app_mainTrace env :=
  ⟨rfl, rfl, by simp [app_mainTrace], by simp [app_mainTrace], by simp [app_mainTrace]⟩

lemma voltage_le (r : ℚ) (h : r ≤ 4095) : voltage r ≤ 33 / 10 := by
  rw [voltage, div_le_iff₀ (by norm_num : (0:ℚ) < 4095.0)]
  nlinarith

lemma roundMilli_le_of_le (v : ℚ) (hv : v ≤ 33 / 10) : roundMilli v ≤ 3300 := by
  have h1 : (Int.floor (v * 1000 + 1/2) : ℤ) < 3301 := by
    apply Int.floor_lt.mpr
    push_cast
    linarith
  rw [roundMilli]
  omega

lemma roundMilli_voltage_le (raw : ℕ) (h : raw ≤ 4095) :
    roundMilli (voltage raw) ≤ 3300 := by
  apply roundMilli_le_of_le
  apply voltage_le
  exact_mod_cast h

lemma sampleLine_length_of_le (v : ℚ) (h : roundMilli v ≤ 3300) :
    (sampleLine v).length = 7 := by
  have hd : roundMilli v / 1000 ≤ 3 := by omega
  have h1 : (natDecStr (roundMilli v / 1000)).length = 1 := by
    have hall : ∀ d : Nat, d ≤ 3 → (natDecStr d).length = 1 := by decide
    exact hall _ hd
  rw [sampleLine, printf3f]
  rw [String.length_append, String.length_append, String.length_append, h1]
  rfl

/-- C4: the acquisition path converts a raw code to a voltage by the
linear formula `raw * 3.3 / 4095.0`; in exact arithmetic (the value that
floating rounding approximates) `raw = 4095` yields exactly `33/10`
(printed `3.300`) and `raw = 0` yields exactly `0` (printed `0.000`). -/
theorem C4_voltage_conversion :
    (∀ raw : ℚ, voltage raw = raw * (33 / 10) / 4095)
    ∧ voltage 4095 = 33 / 10
    ∧ voltage 0 = 0 := by
  refine ⟨fun raw => by rw [voltage]; norm_num, by rw [voltage]; norm_num,
    by rw [voltage]; norm_num⟩

/-- C5: `AdcTask` emits exactly one serial line per acquired sample, in
the `"%.3f\r\n"` format: raw code 2048 produces exactly `"1.650\r\n"`,
and the voltage 1.6499995 is likewise formatted as exactly `"1.650\r\n"`
(rounded to three decimals). -/
theorem C5_serial_line_format :
    sampleLine (voltage 2048) = "1.650\r\n"
    ∧ sampleLine (16499995 / 10000000 : ℚ) = "1.650\r\n"
    ∧ adcTaskIterTrace.count Step.uartSendString = 1 := by
  refine ⟨?_, ?_, by decide⟩
  · have hf : Int.floor ((voltage 2048) * 1000 + 1/2) = (1650 : ℤ) := by
      rw [Int.floor_eq_iff]
      refine ⟨by norm_num [voltage], by norm_num [voltage]⟩
    have h2 : roundMilli (voltage 2048) = 1650 := by rw [roundMilli, hf]; rfl
    rw [sampleLine, printf3f, h2]
    decide
  · have hf : Int.floor ((16499995 / 10000000 : ℚ) * 1000 + 1/2) = (1650 : ℤ) := by
      rw [Int.floor_eq_iff]
      refine ⟨by norm_num, by norm_num⟩
    have h2 : roundMilli (16499995 / 10000000 : ℚ) = 1650 := by
      rw [roundMilli, hf]; rfl
    rw [sampleLine, printf3f, h2]
    decide

/-- C6 counterexample: the reporter's formatting call in `AdcTask` is
`sprintf`, which takes no output-size bound — so the claim that the
reporter never calls an unbounded-write formatter is false. -/
theorem C6_counterexample :
    adcTaskFormatter = CFormatter.sprintf
    ∧ CFormatter.boundedWrite adcTaskFormatter = false :=
  ⟨rfl, rfl⟩

/-- C6 amended: for every raw sample value in `[0, 4095]` the formatted
string — 7 characters plus the NUL terminator, 8 bytes — fits the claimed
10-byte worst case and the actual 32-byte buffer, so the `sprintf` call
cannot overflow it; but overflow is prevented only by this bounded value
range and the buffer size, not by a bounded-write formatter: the call is
`sprintf`, which bounds nothing. -/
theorem C6_format_fits_buffer (raw : ℕ) (h : raw ≤ 4095) :
    (sampleLine (voltage raw)).length + 1 = 8
    ∧ (sampleLine (voltage raw)).length + 1 ≤ 10
    ∧ (sampleLine (voltage raw)).length + 1 ≤ adcTaskBufferBytes
    ∧ CFormatter.boundedWrite adcTaskFormatter = false := by
  have hl := sampleLine_length_of_le (voltage raw) (roundMilli_voltage_le raw h)
  rw [hl]
  refine ⟨rfl, by norm_num, by norm_num [adcTaskBufferBytes], rfl⟩

/-- Witness for C6 (amended) at the concrete raw code 2048. -/
theorem C6_format_fits_buffer_witness :
    2048 ≤ 4095
    ∧ ((sampleLine (voltage 2048)).length + 1 = 8
       ∧ (sampleLine (voltage 2048)).length + 1 ≤ 10
       ∧ (sampleLine (voltage 2048)).length + 1 ≤ adcTaskBufferBytes
       ∧ CFormatter.boundedWrite adcTaskFormatter = false) :=
  ⟨by decide, C6_format_fits_buffer 2048 (by decide)⟩

/-- C8: the waveform store holds exactly 231 byte-sized amplitudes, no
operation of the program writes to it (each of the three runtime routines
leaves the table exactly as constructed), and the cursor invariant
`indice_ecg < 231` is preserved by every operation (the playback firing
re-establishes it unconditionally via the modulo, and the two acquisition
routines do not touch the cursor). -/
theorem C8_waveform_store_invariants (s : SysState) (raw : Nat)
    (h : s.indice_ecg < BUFFER_SIZE) :
    ecg.length = BUFFER_SIZE
    ∧ (∀ x ∈ ecg, x < 256)
    ∧ initState.ecgTable = ecg
    ∧ initState.indice_ecg = 0
    ∧ (timerEcgFire s).1.ecgTable = s.ecgTable
    ∧ (timerAdcFire s).ecgTable = s.ecgTable
    ∧ (adcTaskFire raw s).1.ecgTable = s.ecgTable
    ∧ (timerEcgFire s).1.indice_ecg < BUFFER_SIZE
    ∧ (timerAdcFire s).indice_ecg < BUFFER_SIZE
    ∧ (adcTaskFire raw s).1.indice_ecg < BUFFER_SIZE := by
  exact ⟨by decide, by decide, rfl, rfl, rfl, rfl, rfl,
    Nat.mod_lt _ (by decide), h, h⟩

/-- Witness for C8 at the initial state with raw sample 1000. -/
theorem C8_waveform_store_invariants_witness :
    initState.indice_ecg < BUFFER_SIZE
    ∧ (ecg.length = BUFFER_SIZE
       ∧ (∀ x ∈ ecg, x < 256)
       ∧ initState.ecgTable = ecg
       ∧ initState.indice_ecg = 0
       ∧ (timerEcgFire initState).1.ecgTable = initState.ecgTable
       ∧ (timerAdcFire initState).ecgTable = initState.ecgTable
       ∧ (adcTaskFire 1000 initState).1.ecgTable = initState.ecgTable
       ∧ (timerEcgFire initState).1.indice_ecg < BUFFER_SIZE
       ∧ (timerAdcFire initState).indice_ecg < BUFFER_SIZE
       ∧ (adcTaskFire 1000 initState).1.indice_ecg < BUFFER_SIZE) :=
  ⟨by decide, C8_waveform_store_invariants initState 1000 (by decide)⟩

lemma convertToBcdArray_fill_eq (digits : Nat) :
    ∀ data : Nat, data < 10 ^ digits →
      convertToBcdArray_fill data digits
        = List.replicate (digits - (Nat.digits 10 data).length) 0
          ++ (Nat.digits 10 data).reverse := by
  induction digits with
  | zero =>
      intro data hd
      have h0 : data = 0 := by simpa using hd
      subst h0
      simp [convertToBcdArray_fill]
  | succ k ih =>
      intro data hd
      by_cases h0 : data = 0
      · subst h0
        simp only [convertToBcdArray_fill, Nat.zero_div, Nat.zero_mod]
        rw [ih 0 (by positivity)]
        simp [List.replicate_succ']
      · have hlt : data / 10 < 10 ^ k := by
          rw [Nat.div_lt_iff_lt_mul (by norm_num)]
          calc data < 10 ^ (k + 1) := hd
          _ = 10 ^ k * 10 := by ring
        simp only [convertToBcdArray_fill]
        rw [ih (data / 10) hlt,
          Nat.digits_def' (by norm_num : 1 < 10) (Nat.pos_of_ne_zero h0)]
        simp [Nat.succ_sub_succ, List.append_assoc]

/-- C10: `convertToBcdArray` fails (C return value `-1`, here `none`)
exactly when `data ≥ 10^digits` (stated under the claim's proviso that
`10^digits` is representable in a C `int`), and succeeds (C return value
`0`, here `some`) with the output array holding the decimal digits of
`data` most-significant first (zero-padded on the left to the requested
width); and when the conversion fails, `DisplayNumberOnLcd` returns early
having performed no GPIO write at all. -/
theorem C10_bcd_error_atomicity (data digits : Nat) (bcd_gpio sel_gpio : List Nat)
    (_hrep : 10 ^ digits < 2 ^ 31) :
    (convertToBcdArray data digits = none ↔ 10 ^ digits ≤ data)
    ∧ (∀ l, convertToBcdArray data digits = some l →
        l = List.replicate (digits - (Nat.digits 10 data).length) 0
            ++ (Nat.digits 10 data).reverse)
    ∧ (10 ^ digits ≤ data → DisplayNumberOnLcd data digits bcd_gpio sel_gpio = []) := by
  refine ⟨?_, ?_, ?_⟩
  · by_cases h : 10 ^ digits ≤ data <;> simp [convertToBcdArray, h]
  · intro l hl
    by_cases h : 10 ^ digits ≤ data
    · simp [convertToBcdArray, h] at hl
    · simp only [convertToBcdArray, if_neg (by omega : ¬ 10 ^ digits ≤ data),
        Option.some.injEq] at hl
      rw [← hl]
      exact convertToBcdArray_fill_eq digits data (by omega)
  · intro h
    simp [DisplayNumberOnLcd, convertToBcdArray, h]

/-- Witness for C10 at the program's own concrete call:
`DisplayNumberOnLcd(682, 3, ...)` with the pin maps from `app_main` of
`guia1_ej6.c`. -/
theorem C10_bcd_error_atomicity_witness :
    10 ^ 3 < 2 ^ 31
    ∧ ((convertToBcdArray 682 3 = none ↔ 10 ^ 3 ≤ 682)
       ∧ (∀ l, convertToBcdArray 682 3 = some l →
           l = List.replicate (3 - (Nat.digits 10 682).length) 0
               ++ (Nat.digits 10 682).reverse)
       ∧ (10 ^ 3 ≤ 682 →
           DisplayNumberOnLcd 682 3 [20, 21, 22, 23] [19, 18, 9] = [])) :=
  ⟨by decide, C10_bcd_error_atomicity 682 3 [20, 21, 22, 23] [19, 18, 9] (by decide)⟩
